import Mathlib

/-!
Shallow embedding of the contract-simplifier repository
(`Practice/contract_simplifier`): the auth store (`utils/auth.py`), the
parser fallback chain (`utils/parser.py` and its `test_parser3.py`
variant), the AI summarizer (`utils/ai_processor.py` and its
`test_ai_pro1.py` variant), and the Streamlit app steps (`app.py`).
External libraries (hashlib, pdfplumber, OCR.Space HTTP, the OpenAI
client, python-docx) are modelled as oracle parameters; Python
exceptions are modelled with `Except`, and the Python call stack with an
explicit fuel argument where the source recurses.
-/

/-- Association list lookup by key, modelling Python `dict.get`. -/
def findEntry {κ α : Type} [DecidableEq κ] : List (κ × α) → κ → Option α
  | [], _ => none
  | (k, v) :: rest, u => if k = u then some v else findEntry rest u

/-- Association list update or insert, modelling Python `d[k] = v`. -/
def setEntry {κ α : Type} [DecidableEq κ] : List (κ × α) → κ → α → List (κ × α)
  | [], u, v => [(u, v)]
  | (k, w) :: rest, u, v => if k = u then (u, v) :: rest else (k, w) :: setEntry rest u v

theorem findEntry_setEntry {κ α : Type} [DecidableEq κ] (s : List (κ × α)) (u x : κ) (v : α) :
    findEntry (setEntry s u v) x = if x = u then some v else findEntry s x := by
  induction s with
  | nil =>
    by_cases h : x = u
    · subst h; simp [setEntry, findEntry]
    · have h2 : ¬ u = x := fun hh => h hh.symm
      simp [setEntry, findEntry, h, h2]
  | cons hd tl ih =>
    obtain ⟨k, w⟩ := hd
    by_cases hk : k = u
    · subst hk
      by_cases h : x = k
      · subst h; simp [setEntry, findEntry]
      · have h2 : ¬ k = x := fun hh => h hh.symm
        simp [setEntry, findEntry, h, h2]
    · by_cases hx : k = x
      · subst hx
        simp [setEntry, findEntry, hk]
      · simp [setEntry, findEntry, hk, hx, ih]

-- ---------------------------------------------------------------------
-- utils/auth.py
-- ---------------------------------------------------------------------

/-- User record stored by `utils/auth.py`: `{"pw_hash": ..., "plan": ...}`. -/
structure UserRec where
  pw_hash : String
  plan : String
  deriving DecidableEq, Repr

/-- User store: the module-level dict mapping username to record. -/
def UserStore := List (String × UserRec)

/-- Usage record: `{"uploads": int, "summaries": int}` from `utils/auth.py`. -/
structure Usage where
  uploads : Int
  summaries : Int
  deriving DecidableEq, Repr

/-- Usage store: the module-level dict mapping username to counters. -/
def UsageStore := List (String × Usage)

/-- Model of `_hash_password` in `utils/auth.py`: it concatenates username
and password and applies `hashlib.sha256(...).hexdigest()`; the sha256 hex
digest itself is an external library call, passed in as the oracle `sha`.
The `None` guard of the source is not representable: Lean strings are
never `None`. -/
def hash_password (sha : String → String) (username password : String) : String :=
  sha (username ++ password)

/-- Model of `register_user` in `utils/auth.py`. The Python function
mutates the store only on the success path; here the pair returns the
resulting store together with the `ValueError` message when one is
raised, in which case the store component is the unchanged input. -/
def register_user (sha : String → String) (users : List (String × UserRec))
    (username password plan : String) : List (String × UserRec) × Option String :=
  if username = "" ∨ password = "" then
    (users, some "username and password are required")
  else if (findEntry users username).isSome then
    (users, some "username already exists")
  else
    let planNorm := if plan = "free" ∨ plan = "paid" then plan else "free"
    ((username, ⟨hash_password sha username password, planNorm⟩) :: users, none)

/-- Model of `validate_user` in `utils/auth.py`. -/
def validate_user (sha : String → String) (users : List (String × UserRec))
    (username password : String) : Bool :=
  if username = "" ∨ password = "" then false
  else
    match findEntry users username with
    | none => false
    | some u => if u.pw_hash = hash_password sha username password then true else false

/-- Model of `get_user_plan` in `utils/auth.py`. -/
def get_user_plan (users : List (String × UserRec)) (username : String) : String :=
  match findEntry users username with
  | none => "free"
  | some u => u.plan

/-- Model of `ensure_default_user` in `utils/auth.py`: inserts the
`test`/`test` user only when absent. -/
def ensure_default_user (sha : String → String) (users : List (String × UserRec)) :
    List (String × UserRec) :=
  if (findEntry users "test").isSome then users
  else ("test", ⟨hash_password sha "test" "test", "free"⟩) :: users

/-- Model of `list_users` in `utils/auth.py` (a shallow copy of the store). -/
def list_users (users : List (String × UserRec)) : List (String × UserRec) := users

/-- Model of `increment_usage` in `utils/auth.py`: missing entries start
from zero counters; the empty username is ignored. -/
def increment_usage (store : List (String × Usage)) (username : String)
    (uploads summaries : Int) : List (String × Usage) :=
  if username = "" then store
  else
    let entry := (findEntry store username).getD ⟨0, 0⟩
    setEntry store username ⟨entry.uploads + uploads, entry.summaries + summaries⟩

/-- Model of `get_usage` in `utils/auth.py`. -/
def get_usage (store : List (String × Usage)) (username : String) : Usage :=
  if username = "" then ⟨0, 0⟩
  else (findEntry store username).getD ⟨0, 0⟩

/-- Every record of the store carries a plan tag in the set free/paid. -/
def PlansValid (users : List (String × UserRec)) : Prop :=
  ∀ x r, findEntry users x = some r → r.plan = "free" ∨ r.plan = "paid"

-- ---------------------------------------------------------------------
-- Computable models of the Python string primitives used by the code
-- ---------------------------------------------------------------------

/-- Whitespace test of Python `str.strip` and `str.split` (the ASCII
whitespace characters; the code never feeds other whitespace). -/
def pyIsSpace (c : Char) : Bool :=
  c = ' ' || c = '\t' || c = '\n' || c = '\r' || c = '\x0b' || c = '\x0c'

/-- Drop leading characters satisfying `p`. -/
def dropLeadWhile (p : Char → Bool) : List Char → List Char
  | [] => []
  | c :: cs => if p c then dropLeadWhile p cs else c :: cs

/-- Model of Python `str.strip()`: remove whitespace at both ends. -/
def pyStrip (s : String) : String :=
  String.mk ((dropLeadWhile pyIsSpace (dropLeadWhile pyIsSpace s.data).reverse).reverse)

/-- ASCII lower-casing of one character, as Python `str.lower` does on the
ASCII inputs this code handles. -/
def pyLowerChar (c : Char) : Char :=
  if 65 ≤ c.toNat ∧ c.toNat ≤ 90 then Char.ofNat (c.toNat + 32) else c

/-- Model of Python `str.lower()`. -/
def pyLower (s : String) : String := String.mk (s.data.map pyLowerChar)

/-- Leading-match test on character lists, first step of the models of the
Python `in` substring operator and of `str.endswith`. -/
def leadMatch : List Char → List Char → Bool
  | [], _ => true
  | _ :: _, [] => false
  | p :: ps, c :: cs => p == c && leadMatch ps cs

/-- Model of Python `s.endswith(suf)`. -/
def pyEndsWith (s suf : String) : Bool :=
  leadMatch suf.data.reverse s.data.reverse

/-- Substring search on character lists: does `pat` occur contiguously? -/
def hasSub (pat : List Char) : List Char → Bool
  | [] => pat.isEmpty
  | c :: rest => leadMatch pat (c :: rest) || hasSub pat rest

/-- Model of the Python expression `pat in s` on strings. -/
def strHasSub (s pat : String) : Bool :=
  hasSub pat.toList s.toList

/-- Word-count helper: counts the maximal nonspace runs, with a flag that
records being inside a word. -/
def wcAux : Bool → List Char → Nat
  | _, [] => 0
  | inWord, c :: cs =>
    if pyIsSpace c then wcAux false cs
    else (if inWord then 0 else 1) + wcAux true cs

/-- Model of Python `len(text.split())`, the word counts kept in session
state by app.py. -/
def wordCount (s : String) : Nat := wcAux false s.data

-- ---------------------------------------------------------------------
-- utils/parser.py
-- ---------------------------------------------------------------------

/-- Python exceptions that the parser module can raise. -/
inductive PyExn where
  | recursionError
  | runtimeError (msg : String)
  | nameError (msg : String)
  | valueError (msg : String)
  deriving DecidableEq, Repr

/-- Outcome of the OCR.Space HTTP interaction, an external service. The
ErrorMessage list normalization of the source collapses to the single
message carried by `processingError`. -/
inductive OcrOutcome where
  | requestFailure (msg : String)
  | badJson
  | processingError (msg : String)
  | parsed (texts : List String)
  deriving DecidableEq, Repr

/-- Environment for the OCR helper: the `OCR_SPACE_API_KEY` secret and the
response of the OCR.Space service for a given filename and payload. -/
structure OcrEnv where
  apiKey : String
  respond : String → List Nat → OcrOutcome

/-- Model of `ocr_space_request` in `utils/parser.py`: raises when the key
is missing, on HTTP failure, on a non-JSON body and on a service-side
processing error; otherwise joins the ParsedText fields and strips. -/
def ocr_space_request (env : OcrEnv) (fileBytes : List Nat) (filename : String) :
    Except PyExn String :=
  if env.apiKey = "" then
    Except.error (PyExn.runtimeError "OCR_SPACE_API_KEY not configured in Streamlit secrets.")
  else
    match env.respond filename fileBytes with
    | OcrOutcome.requestFailure m => Except.error (PyExn.runtimeError ("OCR request failed: " ++ m))
    | OcrOutcome.badJson =>
        Except.error (PyExn.runtimeError "OCR service returned an unexpected response format.")
    | OcrOutcome.processingError m => Except.error (PyExn.runtimeError ("OCR service error: " ++ m))
    | OcrOutcome.parsed ts => Except.ok (pyStrip (String.intercalate "\n" ts))

/-- Argument shapes accepted by the extraction helpers: a file-like object
with `getvalue` and an optional `name` attribute, raw bytes, or a path. -/
inductive PyFile where
  | fileLike (content : List Nat) (name : Option String)
  | rawBytes (content : List Nat)
  | path (p : String)
  deriving DecidableEq, Repr

/-- Outcome of the pdfplumber library on a given stream: either `open`
raises, or it yields per-page `extract_text` results (none models a page
exception or a `None` return, both of which append the empty string). -/
inductive PlumberOutcome where
  | openFail
  | pages (ts : List (Option String))
  deriving DecidableEq, Repr

/-- Model of the first binding of `extract_text_from_pdf` in
`utils/parser.py` (lines 81 to 110), the pdfplumber-based extractor. This
binding is shadowed at module load by the wrapper defined at line 203 and
is unreachable through the public name. -/
def extract_text_from_pdf_orig (pl : PlumberOutcome) : String :=
  match pl with
  | PlumberOutcome.openFail => ""
  | PlumberOutcome.pages ts => pyStrip (String.intercalate "\n" (ts.map (fun o => o.getD "")))

/-- Body of the try block of `extract_text_from_docx` in `utils/parser.py`;
the paragraphs oracle is the outcome of `docx.Document`, none meaning the
library raised. -/
def docx_body (paras : Option (List String)) : Except PyExn String :=
  match paras with
  | none => Except.error (PyExn.runtimeError "docx failure")
  | some ps => Except.ok (pyStrip (String.intercalate "\n" ps))

/-- Model of `extract_text_from_docx` in `utils/parser.py`: the catch-all
wrapper around `docx_body` that converts any exception into the empty
string. -/
def extract_text_from_docx (paras : Option (List String)) : String :=
  match docx_body paras with
  | Except.ok s => s
  | Except.error _ => ""

/-- Body of the try block of `extract_text_from_image` in `utils/parser.py`:
path inputs raise ValueError; the others call the OCR helper with the
file name or the `image.png` default. -/
def image_body (env : OcrEnv) (f : PyFile) : Except PyExn String :=
  match f with
  | PyFile.fileLike c name => ocr_space_request env c (name.getD "image.png")
  | PyFile.rawBytes c => ocr_space_request env c "image.png"
  | PyFile.path _ => Except.error (PyExn.valueError "Unsupported image input type for OCR.")

/-- Model of `extract_text_from_image` in `utils/parser.py`: catch-all
wrapper returning the empty string on any exception. -/
def extract_text_from_image (env : OcrEnv) (f : PyFile) : String :=
  match image_body env f with
  | Except.ok s => s
  | Except.error _ => ""

/-- Body of the try block of `extract_text_from_scanned_pdf` in
`utils/parser.py`. On a path input the source reads the file and then
evaluates `os.path.basename`, but `utils/parser.py` never imports `os`,
so that branch raises NameError (or the earlier `open` raises); either
way the outer handler catches it. -/
def scanned_body (env : OcrEnv) (f : PyFile) : Except PyExn String :=
  match f with
  | PyFile.fileLike c name =>
      let filename := name.getD "file.pdf"
      let filename := if pyEndsWith (pyLower filename) ".pdf" then filename else filename ++ ".pdf"
      ocr_space_request env c filename
  | PyFile.rawBytes c => ocr_space_request env c "file.pdf"
  | PyFile.path _ => Except.error (PyExn.nameError "name os is not defined")

/-- Model of `extract_text_from_scanned_pdf` in `utils/parser.py`:
catch-all wrapper returning the empty string on any exception. -/
def extract_text_from_scanned_pdf (env : OcrEnv) (f : PyFile) : String :=
  match scanned_body env f with
  | Except.ok s => s
  | Except.error _ => ""

mutual

/-- Model of the public `extract_text_from_pdf` of `utils/parser.py` after
module load: the rebinding at line 203 makes it call
`extract_text_from_pdf_auto`, and Python resolves the name in the body of
`extract_text_from_pdf_auto` at call time, reaching this wrapper again.
The fuel argument counts remaining stack frames; exhausting it is the
RecursionError that CPython raises at its recursion limit, and no frame
of the cycle catches it. -/
def extract_text_from_pdf_run (env : OcrEnv) : Nat → PyFile → Except PyExn String
  | 0, _ => Except.error PyExn.recursionError
  | fuel + 1, f => extract_text_from_pdf_auto_run env fuel f

/-- Model of `extract_text_from_pdf_auto` in `utils/parser.py` (lines 184
to 198): its first statement calls the module-level name
`extract_text_from_pdf`, which at call time is the wrapper above; if that
returned nonempty stripped text it would be returned, else the OCR
fallback runs inside its own try block. -/
def extract_text_from_pdf_auto_run (env : OcrEnv) : Nat → PyFile → Except PyExn String
  | 0, _ => Except.error PyExn.recursionError
  | fuel + 1, f =>
    match extract_text_from_pdf_run env fuel f with
    | Except.error e => Except.error e
    | Except.ok text =>
        if pyStrip text = "" then Except.ok (extract_text_from_scanned_pdf env f)
        else Except.ok text

end

theorem pdf_run_diverges_aux (env : OcrEnv) (fuel : Nat) (f : PyFile) :
    extract_text_from_pdf_run env fuel f = Except.error PyExn.recursionError ∧
    extract_text_from_pdf_auto_run env fuel f = Except.error PyExn.recursionError := by
  induction fuel with
  | zero => exact ⟨rfl, rfl⟩
  | succ n ih =>
    refine ⟨?_, ?_⟩
    · rw [extract_text_from_pdf_run]
      exact ih.2
    · rw [extract_text_from_pdf_auto_run, ih.1]

-- ---------------------------------------------------------------------
-- utils/ai_processor.py and the test_ai_pro1.py variant
-- ---------------------------------------------------------------------

/-- Chat message dict with `role` and `content` keys. -/
structure Message where
  role : String
  content : String
  deriving DecidableEq, Repr

/-- Request assembled for the chat-completion call: the message list, the
model name and the token budget. The float temperature argument is left
out of the model. -/
structure ChatRequest where
  messages : List Message
  modelName : String
  maxTokens : Nat
  deriving DecidableEq, Repr

/-- Token-budget table `LENGTH_TO_MAX_TOKENS` of `utils/ai_processor.py`
(the `test_ai_pro1.py` variant has the same table). -/
def LENGTH_TO_MAX_TOKENS : List (String × Nat) :=
  [("short", 300), ("medium", 800), ("detailed", 1400)]

/-- System message content shared by both summarizer variants. -/
def SYS_CONTENT : String :=
  "You are a helpful legal assistant that summarizes contracts into plain English."

/-- Style normalization at the top of `summarize_contract`:
`(style or "medium").lower()` followed by the membership check. The
`none` input models Python `None`; the empty string is falsy, so
`style or "medium"` replaces it as well. -/
def normStyle (style : Option String) : String :=
  let s0 := match style with
    | none => "medium"
    | some s => if s = "" then "medium" else s
  let s1 := pyLower s0
  if s1 = "short" ∨ s1 = "medium" ∨ s1 = "detailed" then s1 else "medium"

/-- Length instruction of `utils/ai_processor.py` per normalized style. -/
def lengthInstruction (s : String) : String :=
  if s = "short" then
    "Please produce a very concise summary (about 1–2 short paragraphs)."
  else if s = "detailed" then
    "Please produce a comprehensive detailed summary covering parties, obligations, deadlines, penalties, payment terms, and any notable risks or unusual clauses."
  else
    "Please produce a balanced summary (concise paragraphs highlighting key clauses, obligations and important risks)."

/-- Length instruction of the `test_ai_pro1.py` variant; only the medium
wording differs from `utils/ai_processor.py`. -/
def lengthInstructionPro1 (s : String) : String :=
  if s = "short" then
    "Please produce a very concise summary (about 1–2 short paragraphs)."
  else if s = "detailed" then
    "Please produce a comprehensive detailed summary covering parties, obligations, deadlines, penalties, payment terms, and any notable risks or unusual clauses."
  else
    "Please produce a balanced summary highlighting key clauses, obligations, and important risks in a concise manner."

/-- Request built by `summarize_contract` in `utils/ai_processor.py`: one
system message, one user message whose content is the length instruction,
a blank line, the `Contract text:` label and the contract text, and the
token budget looked up with default 800. -/
def buildRequest (text : String) (style : Option String) : ChatRequest :=
  let s := normStyle style
  { messages :=
      [⟨"system", SYS_CONTENT⟩,
       ⟨"user", lengthInstruction s ++ "\n\nContract text:\n" ++ text⟩],
    modelName := "gpt-3.5-turbo",
    maxTokens := (findEntry LENGTH_TO_MAX_TOKENS s).getD 800 }

/-- Request built by the `test_ai_pro1.py` variant of `summarize_contract`:
same shape, but the user content is the length instruction, a blank line
and the text with no `Contract text:` label. -/
def buildRequestPro1 (text : String) (style : Option String) : ChatRequest :=
  let s := normStyle style
  { messages :=
      [⟨"system", SYS_CONTENT⟩,
       ⟨"user", lengthInstructionPro1 s ++ "\n\n" ++ text⟩],
    modelName := "gpt-3.5-turbo",
    maxTokens := (findEntry LENGTH_TO_MAX_TOKENS s).getD 800 }

/-- Model of `summarize_contract` in `utils/ai_processor.py`. The oracle
`api` is `_call_openai_chat`, indexed by the number of chat calls made so
far so that distinct invocations can be told apart; the pair returns the
result and the updated call count — the body makes exactly one call. Any
exception from the call is wrapped into the generic
`AI summarization error` RuntimeError; there is no substring matching in
this variant. -/
def summarize_contract_run (api : Nat → ChatRequest → Except String String)
    (n : Nat) (text : String) (style : Option String) : Except String String × Nat :=
  (match api n (buildRequest text style) with
   | Except.ok s => Except.ok s
   | Except.error e => Except.error ("AI summarization error: " ++ e), n + 1)

/-- Authentication message raised by the `test_ai_pro1.py` variant. -/
def AUTH_MSG : String :=
  "AI authentication failed: invalid OpenAI API key. Please check your key in Streamlit Secrets or environment variables."

/-- Rate-limit message raised by the `test_ai_pro1.py` variant. -/
def RATE_MSG : String :=
  "AI rate limit reached. Please try again shortly or upgrade your plan."

/-- Invalid-API-key test of the `test_ai_pro1.py` variant on the
lower-cased error text, with the Python precedence `A or (B and C)`. -/
def invalidKeyMatch (msg : String) : Bool :=
  strHasSub (pyLower msg) "invalid_api_key" ||
    (strHasSub (pyLower msg) "invalid" && strHasSub (pyLower msg) "key")

/-- Rate-limit test of the `test_ai_pro1.py` variant. -/
def rateLimitMatch (msg : String) : Bool :=
  strHasSub (pyLower msg) "rate limit" || strHasSub (pyLower msg) "rate_limit"

/-- Model of `summarize_contract` in `test_ai_pro1.py`: on failure of the
single chat call, the invalid-API-key substring check runs first, then
the rate-limit check, then the generic wrap. -/
def summarize_contract_pro1_run (api : Nat → ChatRequest → Except String String)
    (n : Nat) (text : String) (style : Option String) : Except String String × Nat :=
  (match api n (buildRequestPro1 text style) with
   | Except.ok s => Except.ok s
   | Except.error e =>
       if invalidKeyMatch e then Except.error AUTH_MSG
       else if rateLimitMatch e then Except.error RATE_MSG
       else Except.error ("AI summarization error: " ++ e), n + 1)

-- ---------------------------------------------------------------------
-- app.py
-- ---------------------------------------------------------------------

/-- Free-plan upload limit `MAX_FREE_BYTES = 4 * 1024 * 1024` of app.py. -/
def MAX_FREE_BYTES : Nat := 4 * 1024 * 1024

/-- Per-tab Streamlit session state slice used by the upload and summary
flows of app.py. -/
structure SessionState where
  last_file_hash : Option String
  last_text : String
  last_summary : String
  last_style : Option String
  last_length : String
  orig_wc : Nat
  summary_wc : Nat
  deriving DecidableEq, Repr

/-- Initial session state set up at the top of app.py. -/
def initSession : SessionState :=
  { last_file_hash := none, last_text := "", last_summary := "",
    last_style := none, last_length := "medium", orig_wc := 0, summary_wc := 0 }

/-- Effective plan in app.py line 142: `get_user_plan(user) or "free"`. -/
def effective_plan (users : List (String × UserRec)) (user : String) : String :=
  let p := get_user_plan users user
  if p = "" then "free" else p

/-- Free-plan rejection message of app.py lines 215 to 218, with the
Python floor divisions by 1024. -/
def freeLimitMsg (size : Nat) : String :=
  "Free plan allows files up to " ++ toString (MAX_FREE_BYTES / 1024 / 1024) ++
    " MB. Your file is " ++ toString (size / 1024 / 1024) ++
    " MB. Please upgrade or upload a smaller file."

/-- Format-style prompt header chosen by the Summarize handlers of app.py
(the multi-line string literals of lines 287 to 301, concatenated). -/
def styleHeader (formatStyle : String) : String :=
  if formatStyle = "Detailed Summary" then
    "Please produce a detailed plain-English summary covering parties, obligations, deadlines, penalties, termination and renewal clauses."
  else if formatStyle = "Bullet Points" then
    "Please summarize the contract into concise bullet points focusing on key obligations, deadlines, penalties, termination and renewal."
  else
    "Please provide a short executive overview highlighting the most critical terms, risks, and actions needed."

/-- Key of the `st.cache_data` memo on `cached_summarize`: the four
arguments file hash, format style, length and prompt text. -/
def CacheKey := Option String × String × String × String
deriving instance DecidableEq for CacheKey

/-- Cache contents of the `st.cache_data` layer. -/
def SummaryCache := List (CacheKey × String)

/-- Model of `cached_summarize` in app.py: the `st.cache_data` wrapper
around `summarize_contract(prompt_text, style=length)`. A hit returns
the stored summary without touching the chat API; a miss calls
`summarize_contract` exactly once and stores the result only when it
succeeds, since Streamlit does not cache raised exceptions. The triple
returns the result, the cache after the call and the updated count of
underlying chat calls. -/
def cached_summarize_run (api : Nat → ChatRequest → Except String String) (n : Nat)
    (cache : List (CacheKey × String)) (fileHash : Option String)
    (formatStyle lengthSel promptText : String) :
    Except String String × List (CacheKey × String) × Nat :=
  match findEntry cache (fileHash, formatStyle, lengthSel, promptText) with
  | some s => (Except.ok s, cache, n)
  | none =>
      match summarize_contract_run api n promptText (some lengthSel) with
      | (Except.ok s, n2) =>
          (Except.ok s, ((fileHash, formatStyle, lengthSel, promptText), s) :: cache, n2)
      | (Except.error e, n2) => (Except.error e, cache, n2)

/-- Inputs of one upload interaction on the Upload page. -/
structure UploadInput where
  fileBytes : List Nat
  fileName : String
  formatStyle : String
  lengthSel : String
  deriving DecidableEq, Repr

/-- Result of one upload interaction: updated usage store, updated session
state, and the error message shown, if any. -/
structure StepOut where
  usage : List (String × Usage)
  sess : SessionState
  errMsg : Option String
  deriving DecidableEq, Repr

/-- Model of the Upload page flow of app.py (lines 201 to 264): the
free-plan size gate with `st.stop()`, the unconditional hash assignment,
the extraction try block whose outcome is the oracle `extr` (error means
the chosen extractor raised), the empty-text branch that clears text and
summary, and the success branch that stores the text and increments the
uploads counter. The `hash` oracle is `hashlib.sha256(...).hexdigest()`. -/
def upload_step (hash : List Nat → String) (plan user : String) (inp : UploadInput)
    (extr : Except String String) (usage : List (String × Usage))
    (sess : SessionState) : StepOut :=
  let size := inp.fileBytes.length
  if plan = "free" ∧ size > MAX_FREE_BYTES then
    { usage := usage, sess := sess, errMsg := some (freeLimitMsg size) }
  else
    let sess1 := { sess with last_file_hash := some (hash inp.fileBytes) }
    let text := match extr with
      | Except.error _ => ""
      | Except.ok t => t
    if pyStrip text = "" then
      { usage := usage,
        sess := { sess1 with last_text := "", last_summary := "", orig_wc := 0, summary_wc := 0 },
        errMsg := some "No readable text found in the uploaded file." }
    else
      { usage := increment_usage usage user 1 0,
        sess := { sess1 with
                  last_text := text,
                  last_style := some inp.formatStyle,
                  last_length := inp.lengthSel,
                  orig_wc := wordCount text },
        errMsg := none }

/-- Result of one Summarize now interaction: updated usage store, session
state, cache, chat-call count, and the error message shown, if any. -/
structure SumOut where
  usage : List (String × Usage)
  sess : SessionState
  cache : List (CacheKey × String)
  calls : Nat
  errMsg : Option String
  deriving DecidableEq

/-- Model of the Summarize now handler of app.py (lines 285 to 340): the
prompt is the style header plus the stored contract text, the summary is
produced through `cached_summarize` keyed by the stored file hash, the
format style, the length and the prompt text; on success the summary and
its word count are stored and the summaries counter is incremented; on
failure nothing changes except the cache call count. -/
def summarize_step (api : Nat → ChatRequest → Except String String) (n : Nat)
    (user formatStyle lengthSel : String) (usage : List (String × Usage))
    (sess : SessionState) (cache : List (CacheKey × String)) : SumOut :=
  let promptText := styleHeader formatStyle ++ "\n\nContract:\n" ++ sess.last_text
  match cached_summarize_run api n cache sess.last_file_hash formatStyle lengthSel promptText with
  | (Except.ok summary, cache2, n2) =>
      { usage := increment_usage usage user 0 1,
        sess := { sess with last_summary := summary, summary_wc := wordCount summary },
        cache := cache2, calls := n2, errMsg := none }
  | (Except.error _, cache2, n2) =>
      { usage := usage, sess := sess, cache := cache2, calls := n2,
        errMsg := some "AI summarization failed. Please try again or check your API key/limits." }

-- ---------------------------------------------------------------------
-- Helper lemmas
-- ---------------------------------------------------------------------

theorem cons_preserves_lookup (users : List (String × UserRec)) (k : String) (rec : UserRec)
    (hk : findEntry users k = none) :
    ∀ x r, findEntry users x = some r → findEntry ((k, rec) :: users) x = some r := by
  intro x r hx
  by_cases h : k = x
  · subst h; rw [hk] at hx; cases hx
  · simp [findEntry, h, hx]

theorem cons_plans_valid (users : List (String × UserRec)) (k : String) (rec : UserRec)
    (hval : PlansValid users) (hplan : rec.plan = "free" ∨ rec.plan = "paid") :
    PlansValid ((k, rec) :: users) := by
  intro x r h
  by_cases hk : k = x
  · subst hk
    simp [findEntry] at h
    rw [← h]
    exact hplan
  · simp [findEntry, hk] at h
    exact hval x r h

theorem planNorm_valid (plan : String) :
    (if plan = "free" ∨ plan = "paid" then plan else "free") = "free" ∨
    (if plan = "free" ∨ plan = "paid" then plan else "free") = "paid" := by
  by_cases hp : plan = "free" ∨ plan = "paid"
  · rcases hp with hp | hp <;> simp [hp]
  · simp [hp]

theorem register_success_shape (sha : String → String) (users : List (String × UserRec))
    (u p plan : String) (h1 : ¬(u = "" ∨ p = "")) (h2 : ¬(findEntry users u).isSome = true) :
    register_user sha users u p plan =
      ((u, ⟨hash_password sha u p,
            if plan = "free" ∨ plan = "paid" then plan else "free"⟩) :: users, none) := by
  simp [register_user, h1, h2]

theorem get_usage_increment (store : List (String × Usage)) (user : String) (a b : Int)
    (hu : user ≠ "") :
    get_usage (increment_usage store user a b) user =
      ⟨(get_usage store user).uploads + a, (get_usage store user).summaries + b⟩ ∧
    ∀ w, w ≠ user → get_usage (increment_usage store user a b) w = get_usage store w := by
  constructor
  · simp [get_usage, increment_usage, hu, findEntry_setEntry]
  · intro w hw
    by_cases hw0 : w = ""
    · simp [get_usage, hw0]
    · simp [get_usage, increment_usage, hu, hw0, findEntry_setEntry, hw]

-- ---------------------------------------------------------------------
-- Claim theorems
-- ---------------------------------------------------------------------

/-- Claim C1. The claim says the public `extract_text_from_pdf` first runs
pdfplumber and falls back to OCR only on empty text. On the code of
`utils/parser.py` this is false for every input: the module rebinds
`extract_text_from_pdf` to call `extract_text_from_pdf_auto`, whose first
statement resolves `extract_text_from_pdf` to that same wrapper, so for
every stack budget and every PDF input the call ends in RecursionError —
no pdfplumber text is ever returned and the OCR endpoint is never
reached. -/
theorem C1_pdf_public_diverges : ∀ (env : OcrEnv) (fuel : Nat) (f : PyFile),
    extract_text_from_pdf_run env fuel f = Except.error PyExn.recursionError :=
  fun env fuel f => (pdf_run_diverges_aux env fuel f).1

/-- Claim C2. Three of the four public extraction functions contain their
exceptions: `extract_text_from_docx`, `extract_text_from_image` and
`extract_text_from_scanned_pdf` either return the text of a successful
body or the empty string, and a missing OCR key yields the empty string.
The fourth, `extract_text_from_pdf`, violates the claim: it propagates
RecursionError to its caller (shown here at stack budget 64 on empty PDF
bytes). -/
theorem C2_extraction_error_containment :
    (∀ paras : Option (List String), extract_text_from_docx paras = "" ∨
       ∃ s, docx_body paras = Except.ok s ∧ extract_text_from_docx paras = s) ∧
    (∀ (env : OcrEnv) (f : PyFile), extract_text_from_image env f = "" ∨
       ∃ s, image_body env f = Except.ok s ∧ extract_text_from_image env f = s) ∧
    (∀ (respond : String → List Nat → OcrOutcome) (f : PyFile),
       extract_text_from_image ⟨"", respond⟩ f = "") ∧
    (∀ (env : OcrEnv) (f : PyFile), extract_text_from_scanned_pdf env f = "" ∨
       ∃ s, scanned_body env f = Except.ok s ∧ extract_text_from_scanned_pdf env f = s) ∧
    (∀ respond : String → List Nat → OcrOutcome,
       extract_text_from_pdf_run ⟨"", respond⟩ 64 (PyFile.rawBytes [])
         = Except.error PyExn.recursionError) := by
  refine ⟨?_, ?_, ?_, ?_, ?_⟩
  · intro paras
    cases h : docx_body paras with
    | ok s => exact Or.inr ⟨s, rfl, by simp [extract_text_from_docx, h]⟩
    | error e => exact Or.inl (by simp [extract_text_from_docx, h])
  · intro env f
    cases h : image_body env f with
    | ok s => exact Or.inr ⟨s, rfl, by simp [extract_text_from_image, h]⟩
    | error e => exact Or.inl (by simp [extract_text_from_image, h])
  · intro respond f
    cases f <;> simp [extract_text_from_image, image_body, ocr_space_request]
  · intro env f
    cases h : scanned_body env f with
    | ok s => exact Or.inr ⟨s, rfl, by simp [extract_text_from_scanned_pdf, h]⟩
    | error e => exact Or.inl (by simp [extract_text_from_scanned_pdf, h])
  · intro respond
    exact (pdf_run_diverges_aux ⟨"", respond⟩ 64 (PyFile.rawBytes [])).1

/-- Claim C5. `register_user` raises ValueError on an empty username or
password and on a duplicate username, leaving the store unchanged; a
successful registration stores exactly the salted hash and a plan tag
normalized into the free/paid set; neither `register_user` nor
`ensure_default_user` (the only store mutators of the public API) ever
changes or removes an existing record, and both preserve plan validity. -/
theorem C5_user_store_invariants : ∀ (sha : String → String)
    (users : List (String × UserRec)) (u p plan : String),
    ((u = "" ∨ p = "" ∨ (findEntry users u).isSome = true) →
       (register_user sha users u p plan).1 = users ∧
       (register_user sha users u p plan).2.isSome = true) ∧
    ((register_user sha users u p plan).2 = none →
       findEntry (register_user sha users u p plan).1 u =
         some ⟨hash_password sha u p,
               if plan = "free" ∨ plan = "paid" then plan else "free"⟩) ∧
    (PlansValid users → PlansValid (register_user sha users u p plan).1) ∧
    (∀ x r, findEntry users x = some r →
       findEntry (register_user sha users u p plan).1 x = some r) ∧
    (PlansValid users → PlansValid (ensure_default_user sha users)) ∧
    (∀ x r, findEntry users x = some r →
       findEntry (ensure_default_user sha users) x = some r) := by
  intro sha users u p plan
  refine ⟨?_, ?_, ?_, ?_, ?_, ?_⟩
  · intro h
    rcases h with h | h | h
    · simp [register_user, h]
    · simp [register_user, h]
    · by_cases h1 : u = "" ∨ p = ""
      · simp [register_user, h1]
      · simp [register_user, h1, h]
  · intro h
    by_cases h1 : u = "" ∨ p = ""
    · simp [register_user, h1] at h
    · by_cases h2 : (findEntry users u).isSome = true
      · simp [register_user, h1, h2] at h
      · rw [register_success_shape sha users u p plan h1 h2]
        simp [findEntry]
  · intro hval
    by_cases h1 : u = "" ∨ p = ""
    · simpa [register_user, h1] using hval
    · by_cases h2 : (findEntry users u).isSome = true
      · simpa [register_user, h1, h2] using hval
      · rw [register_success_shape sha users u p plan h1 h2]
        exact cons_plans_valid users u _ hval (planNorm_valid plan)
  · intro x r hx
    by_cases h1 : u = "" ∨ p = ""
    · simpa [register_user, h1] using hx
    · by_cases h2 : (findEntry users u).isSome = true
      · simpa [register_user, h1, h2] using hx
      · rw [register_success_shape sha users u p plan h1 h2]
        exact cons_preserves_lookup users u _
          (Option.not_isSome_iff_eq_none.mp (by simpa using h2)) x r hx
  · intro hval
    by_cases ht : (findEntry users "test").isSome = true
    · simpa [ensure_default_user, ht] using hval
    · simp only [ensure_default_user, ht, if_false]
      exact cons_plans_valid users "test" _ hval (Or.inl rfl)
  · intro x r hx
    by_cases ht : (findEntry users "test").isSome = true
    · simpa [ensure_default_user, ht] using hx
    · simp only [ensure_default_user, ht, if_false]
      exact cons_preserves_lookup users "test" _
        (Option.not_isSome_iff_eq_none.mp (by simpa using ht)) x r hx

/-- Stand-in for the sha256 hex digest oracle in concrete witnesses. -/
def shaW : String → String := fun s => "#" ++ s

/-- Witness for Claim C5: registering a duplicate username is rejected and
leaves the concrete store unchanged. -/
theorem C5_witness :
    (register_user shaW [("alice", ⟨"h", "free"⟩)] "alice" "pw" "free").1
      = [("alice", ⟨"h", "free"⟩)] ∧
    (register_user shaW [("alice", ⟨"h", "free"⟩)] "alice" "pw" "free").2.isSome = true :=
  (C5_user_store_invariants shaW [("alice", ⟨"h", "free"⟩)] "alice" "pw" "free").1
    (Or.inr (Or.inr (by decide)))

/-- Claim C9. After a successful registration, validation succeeds with
the registered password, fails for any password whose salted hash
differs, fails for any unregistered username, and `validate_user` always
returns false (never raising) when either argument is empty. -/
theorem C9_register_validate_roundtrip : ∀ (sha : String → String)
    (users : List (String × UserRec)) (u p plan : String)
    (users2 : List (String × UserRec)),
    register_user sha users u p plan = (users2, none) →
    (validate_user sha users2 u p = true ∧
     (∀ q, sha (u ++ q) ≠ sha (u ++ p) → validate_user sha users2 u q = false) ∧
     (∀ w, findEntry users2 w = none → validate_user sha users2 w p = false) ∧
     (∀ (st : List (String × UserRec)) (x y : String), x = "" ∨ y = "" →
        validate_user sha st x y = false)) := by
  intro sha users u p plan users2 h
  by_cases h1 : u = "" ∨ p = ""
  · simp [register_user, h1] at h
  · by_cases h2 : (findEntry users u).isSome = true
    · simp [register_user, h1, h2] at h
    · rw [register_success_shape sha users u p plan h1 h2] at h
      have h3 : (u, (⟨hash_password sha u p,
          if plan = "free" ∨ plan = "paid" then plan else "free"⟩ : UserRec)) :: users
          = users2 := congrArg Prod.fst h
      push_neg at h1
      obtain ⟨hu, hp⟩ := h1
      subst h3
      refine ⟨?_, ?_, ?_, ?_⟩
      · simp [validate_user, hu, hp, findEntry, hash_password]
      · intro q hq
        by_cases hq0 : q = ""
        · simp [validate_user, hq0]
        · simp [validate_user, hu, hq0, findEntry, hash_password, Ne.symm hq]
      · intro w hw
        by_cases hw0 : w = ""
        · simp [validate_user, hw0]
        · simp [validate_user, hw0, hp, hw]
      · intro st x y hxy
        rcases hxy with hxy | hxy <;> simp [validate_user, hxy]

/-- Witness for Claim C9 at a concrete registration. -/
theorem C9_witness :
    validate_user shaW [("bob", ⟨"#bobpw", "free"⟩)] "bob" "pw" = true ∧
    validate_user shaW [("bob", ⟨"#bobpw", "free"⟩)] "bob" "qq" = false ∧
    validate_user shaW [("bob", ⟨"#bobpw", "free"⟩)] "carol" "pw" = false ∧
    validate_user shaW [("bob", ⟨"#bobpw", "free"⟩)] "" "pw" = false := by
  have h := C9_register_validate_roundtrip shaW [] "bob" "pw" "free"
    [("bob", ⟨"#bobpw", "free"⟩)] (by decide)
  exact ⟨h.1, h.2.1 "qq" (by decide), h.2.2.1 "carol" (by decide),
    h.2.2.2 [("bob", ⟨"#bobpw", "free"⟩)] "" "pw" (Or.inl rfl)⟩


theorem normStyle_some_ne (v : String) (hv : ¬ v = "") :
    normStyle (some v) =
      if pyLower v = "short" ∨ pyLower v = "medium" ∨ pyLower v = "detailed"
      then pyLower v else "medium" := by
  simp [normStyle, hv]

theorem normStyle_cases (style : Option String) :
    normStyle style = "short" ∨ normStyle style = "medium" ∨ normStyle style = "detailed" := by
  cases style with
  | none => exact Or.inr (Or.inl (by decide))
  | some v =>
    by_cases hv : v = ""
    · subst hv; exact Or.inr (Or.inl (by decide))
    · rw [normStyle_some_ne v hv]
      by_cases h1 : pyLower v = "short" ∨ pyLower v = "medium" ∨ pyLower v = "detailed"
      · rw [if_pos h1]; exact h1
      · rw [if_neg h1]; exact Or.inr (Or.inl rfl)

/-- Claim C10. `summarize_contract` in `utils/ai_processor.py` lower-cases
its style argument and treats every value outside short/medium/detailed
(including Python None and the falsy empty string) as medium; the token
budget is always exactly 300, 800 or 1400 according to the normalized
style; and the request is exactly one system message plus one user
message whose content is the length instruction followed by the contract
text. -/
theorem C10_style_normalization_request_shape : ∀ (text : String) (style : Option String),
    ((normStyle style = "short" ∧ (buildRequest text style).maxTokens = 300) ∨
     (normStyle style = "medium" ∧ (buildRequest text style).maxTokens = 800) ∨
     (normStyle style = "detailed" ∧ (buildRequest text style).maxTokens = 1400)) ∧
    (buildRequest text style).messages =
      [⟨"system", SYS_CONTENT⟩,
       ⟨"user", lengthInstruction (normStyle style) ++ "\n\nContract text:\n" ++ text⟩] ∧
    normStyle none = "medium" ∧
    (∀ v : String, (pyLower v = "short" ∨ pyLower v = "medium" ∨ pyLower v = "detailed") ∨
       normStyle (some v) = "medium") ∧
    (∀ v : String, normStyle (some v) = pyLower v ∨ normStyle (some v) = "medium") := by
  intro text style
  refine ⟨?_, rfl, by decide, ?_, ?_⟩
  · rcases normStyle_cases style with h | h | h
    · exact Or.inl ⟨h, by simp [buildRequest, h, LENGTH_TO_MAX_TOKENS, findEntry]⟩
    · exact Or.inr (Or.inl ⟨h, by simp [buildRequest, h, LENGTH_TO_MAX_TOKENS, findEntry]⟩)
    · exact Or.inr (Or.inr ⟨h, by simp [buildRequest, h, LENGTH_TO_MAX_TOKENS, findEntry]⟩)
  · intro v
    by_cases h1 : pyLower v = "short" ∨ pyLower v = "medium" ∨ pyLower v = "detailed"
    · exact Or.inl h1
    · right
      by_cases hv : v = ""
      · subst hv; decide
      · rw [normStyle_some_ne v hv, if_neg h1]
  · intro v
    by_cases hv : v = ""
    · subst hv; exact Or.inr (by decide)
    · by_cases h1 : pyLower v = "short" ∨ pyLower v = "medium" ∨ pyLower v = "detailed"
      · exact Or.inl (by rw [normStyle_some_ne v hv, if_pos h1])
      · exact Or.inr (by rw [normStyle_some_ne v hv, if_neg h1])

/-- Chat oracle that always fails with message `e`, for the error-path
theorems. -/
def apiFail (e : String) : Nat → ChatRequest → Except String String :=
  fun _ _ => Except.error e

/-- Counterexample to Claim C4. On an error text containing both an
invalid-key fragment and the fragment `rate limit`, the `test_ai_pro1.py`
variant raises the authentication message, not the rate-limit message the
claim promises whenever `rate limit` appears, because the invalid-key
check runs first; and the `utils/ai_processor.py` variant imported by
app.py performs no substring matching at all, wrapping even a pure
rate-limit text in the generic message. -/
theorem C4_counterexample :
    (summarize_contract_pro1_run (apiFail "rate limit reached: invalid api key") 0 "text"
        (some "medium")).1 = Except.error AUTH_MSG ∧
    strHasSub "rate limit reached: invalid api key" "rate limit" = true ∧
    AUTH_MSG ≠ RATE_MSG ∧
    (summarize_contract_run (apiFail "rate limit hit") 0 "text" (some "medium")).1
      = Except.error "AI summarization error: rate limit hit" ∧
    "AI summarization error: rate limit hit" ≠ RATE_MSG := by
  refine ⟨rfl, by decide, by decide, rfl, by decide⟩

/-- Claim C4, amended. When the single chat call fails with text `e`, the
`test_ai_pro1.py` variant raises the authentication message when the
lower-cased text matches the invalid-key test, otherwise the rate-limit
message when it matches the rate-limit test, otherwise the generic wrap;
the `utils/ai_processor.py` variant always raises the generic wrap. In
both variants exactly one chat call is made: no retry. -/
theorem C4_error_message_mapping : ∀ (e text : String) (style : Option String) (n : Nat),
    summarize_contract_pro1_run (apiFail e) n text style =
      ((if invalidKeyMatch e then Except.error AUTH_MSG
        else if rateLimitMatch e then Except.error RATE_MSG
        else Except.error ("AI summarization error: " ++ e)), n + 1) ∧
    summarize_contract_run (apiFail e) n text style =
      (Except.error ("AI summarization error: " ++ e), n + 1) ∧
    (invalidKeyMatch e = true →
       (summarize_contract_pro1_run (apiFail e) n text style).1 = Except.error AUTH_MSG) ∧
    (invalidKeyMatch e = false → rateLimitMatch e = true →
       (summarize_contract_pro1_run (apiFail e) n text style).1 = Except.error RATE_MSG) := by
  intro e text style n
  refine ⟨rfl, rfl, ?_, ?_⟩
  · intro h
    simp [summarize_contract_pro1_run, apiFail, h]
  · intro h1 h2
    simp [summarize_contract_pro1_run, apiFail, h1, h2]

/-- Witness for the amended Claim C4 at a pure rate-limit error text. -/
theorem C4_witness :
    (summarize_contract_pro1_run (apiFail "rate limit") 0 "t" none).1 = Except.error RATE_MSG :=
  (C4_error_message_mapping "rate limit" "t" none 0).2.2.2 (by decide) (by decide)

/-- Chat oracle whose answer differs between the first and any later
call, distinguishing a memoized pipeline from a fresh-call pipeline. -/
def apiSeqC3 : Nat → ChatRequest → Except String String :=
  fun n _ => Except.ok (if n = 0 then "first summary" else "second summary")

/-- Cache key used in the Claim C3 counterexample. -/
def keyC3 : CacheKey := (none, "Detailed Summary", "medium", "prompt")

/-- Counterexample to Claim C3. `cached_summarize` is a memoization layer:
with a chat oracle whose second answer differs from its first, a repeated
identical request through `cached_summarize` returns the first summary
again and leaves the underlying call count at one, while a direct second
call to `summarize_contract` returns the different second answer — so the
summary-generation step is not observationally equal to calling
`summarize_contract` on each invocation. -/
theorem C3_counterexample :
    cached_summarize_run apiSeqC3 0 [] none "Detailed Summary" "medium" "prompt"
      = (Except.ok "first summary", [(keyC3, "first summary")], 1) ∧
    cached_summarize_run apiSeqC3 1 [(keyC3, "first summary")] none "Detailed Summary" "medium"
        "prompt"
      = (Except.ok "first summary", [(keyC3, "first summary")], 1) ∧
    (summarize_contract_run apiSeqC3 1 "prompt" (some "medium")).1 = Except.ok "second summary" ∧
    ("first summary" : String) ≠ "second summary" :=
  ⟨rfl, rfl, rfl, by decide⟩

/-- Claim C3, amended. The app generates summaries through
`cached_summarize`, an `st.cache_data` memo keyed by file hash, format
style, length and prompt text: a miss calls `summarize_contract` exactly
once and stores a successful result, and any later request with the same
key returns the stored summary with no further underlying call. -/
theorem C3_cached_summarize_memoizes : ∀ (api : Nat → ChatRequest → Except String String)
    (n : Nat) (cache : List (CacheKey × String)) (fh : Option String) (fs ln pt s : String),
    api n (buildRequest pt (some ln)) = Except.ok s →
    findEntry cache ((fh, fs, ln, pt) : CacheKey) = none →
    (cached_summarize_run api n cache fh fs ln pt
       = (Except.ok s, (((fh, fs, ln, pt) : CacheKey), s) :: cache, n + 1) ∧
     ∀ (api2 : Nat → ChatRequest → Except String String) (m : Nat),
       cached_summarize_run api2 m ((((fh, fs, ln, pt) : CacheKey), s) :: cache) fh fs ln pt
         = (Except.ok s, (((fh, fs, ln, pt) : CacheKey), s) :: cache, m)) := by
  intro api n cache fh fs ln pt s h1 h2
  constructor
  · simp [cached_summarize_run, h2, summarize_contract_run, h1]
  · intro api2 m
    simp [cached_summarize_run, findEntry]

/-- Chat oracle that always succeeds with a fixed summary, for witnesses. -/
def apiOkW : Nat → ChatRequest → Except String String :=
  fun _ _ => Except.ok "sum"

/-- Witness for the amended Claim C3 at a concrete cache miss. -/
theorem C3_witness :
    cached_summarize_run apiOkW 0 [] none "Bullet Points" "short" "pt"
      = (Except.ok "sum", [(((none, "Bullet Points", "short", "pt") : CacheKey), "sum")], 1) :=
  (C3_cached_summarize_memoizes apiOkW 0 [] none "Bullet Points" "short" "pt" "sum" rfl rfl).1

/-- Claim C6. Usage counters move only on success: a successful non-empty
extraction adds exactly one to the uploads counter of the acting user and
nothing else, a failed or empty extraction leaves the usage store
untouched, a successful summary generation adds exactly one to the
summaries counter and nothing else, a failed summarization leaves the
usage store untouched, and a user with no recorded activity reads back
zero uploads and zero summaries. -/
theorem C6_usage_counter_semantics : ∀ (hash : List Nat → String) (plan user : String)
    (inp : UploadInput) (t : String) (usage : List (String × Usage)) (sess : SessionState)
    (api : Nat → ChatRequest → Except String String) (n : Nat) (fs ln : String)
    (cache : List (CacheKey × String)),
    user ≠ "" →
    ((¬(plan = "free" ∧ inp.fileBytes.length > MAX_FREE_BYTES) → pyStrip t ≠ "" →
       get_usage (upload_step hash plan user inp (Except.ok t) usage sess).usage user
         = ⟨(get_usage usage user).uploads + 1, (get_usage usage user).summaries⟩ ∧
       (∀ w, w ≠ user →
          get_usage (upload_step hash plan user inp (Except.ok t) usage sess).usage w
            = get_usage usage w)) ∧
     (pyStrip t = "" → (upload_step hash plan user inp (Except.ok t) usage sess).usage = usage) ∧
     (∀ e, (upload_step hash plan user inp (Except.error e) usage sess).usage = usage) ∧
     ((summarize_step api n user fs ln usage sess cache).errMsg = none →
       get_usage (summarize_step api n user fs ln usage sess cache).usage user
         = ⟨(get_usage usage user).uploads, (get_usage usage user).summaries + 1⟩ ∧
       (∀ w, w ≠ user →
          get_usage (summarize_step api n user fs ln usage sess cache).usage w
            = get_usage usage w)) ∧
     ((summarize_step api n user fs ln usage sess cache).errMsg ≠ none →
       (summarize_step api n user fs ln usage sess cache).usage = usage) ∧
     (findEntry usage user = none → get_usage usage user = ⟨0, 0⟩)) := by
  intro hash plan user inp t usage sess api n fs ln cache hu
  refine ⟨?_, ?_, ?_, ?_, ?_, ?_⟩
  · intro hgate ht
    have husage : (upload_step hash plan user inp (Except.ok t) usage sess).usage
        = increment_usage usage user 1 0 := by
      simp [upload_step, hgate, ht]
    rw [husage]
    have hg := get_usage_increment usage user 1 0 hu
    exact ⟨by rw [hg.1]; simp, hg.2⟩
  · intro ht
    by_cases hgate : plan = "free" ∧ inp.fileBytes.length > MAX_FREE_BYTES
    · simp [upload_step, hgate]
    · simp [upload_step, hgate, ht]
  · intro e
    by_cases hgate : plan = "free" ∧ inp.fileBytes.length > MAX_FREE_BYTES
    · simp [upload_step, hgate]
    · have h0 : pyStrip "" = "" := rfl
      simp [upload_step, hgate, h0]
  · intro hok
    cases hres : cached_summarize_run api n cache sess.last_file_hash fs ln
        (styleHeader fs ++ "\n\nContract:\n" ++ sess.last_text) with
    | mk r rest =>
      cases rest with
      | mk c2 n2 =>
        cases r with
        | ok s =>
          have husage : (summarize_step api n user fs ln usage sess cache).usage
              = increment_usage usage user 0 1 := by
            simp [summarize_step, hres]
          rw [husage]
          have hg := get_usage_increment usage user 0 1 hu
          exact ⟨by rw [hg.1]; simp, hg.2⟩
        | error e =>
          exfalso
          simp [summarize_step, hres] at hok
  · intro hbad
    cases hres : cached_summarize_run api n cache sess.last_file_hash fs ln
        (styleHeader fs ++ "\n\nContract:\n" ++ sess.last_text) with
    | mk r rest =>
      cases rest with
      | mk c2 n2 =>
        cases r with
        | ok s =>
          exfalso
          apply hbad
          simp [summarize_step, hres]
        | error e =>
          simp [summarize_step, hres]
  · intro h
    simp [get_usage, hu, h]

/-- Witness for Claim C6: a concrete successful upload moves the uploads
counter of a fresh user from zero to one. -/
theorem C6_witness :
    get_usage (upload_step (fun _ => "h") "free" "u" ⟨[1], "a.pdf", "Detailed Summary", "medium"⟩
        (Except.ok "hello") [] initSession).usage "u" = ⟨1, 0⟩ := by
  have h := ((C6_usage_counter_semantics (fun _ => "h") "free" "u"
      ⟨[1], "a.pdf", "Detailed Summary", "medium"⟩ "hello" [] initSession apiOkW 0
      "Bullet Points" "short" [] (by decide)).1 (by decide) (by decide)).1
  rw [h]
  decide

/-- Claim C7. A signed-in free-plan user uploading more than
`MAX_FREE_BYTES` is rejected with the size message, with usage store and
session state untouched and the result independent of the extractor (no
extraction and no increment happen, and the handler stops before any
summarization); a paid user with the same oversize file passes the gate:
no error, the file hash is stored and a successful non-empty extraction
increments the uploads counter. -/
theorem C7_free_plan_size_gate : ∀ (hash : List Nat → String) (user : String)
    (inp : UploadInput) (extr : Except String String) (usage : List (String × Usage))
    (sess : SessionState),
    inp.fileBytes.length > MAX_FREE_BYTES →
    (upload_step hash "free" user inp extr usage sess
       = ⟨usage, sess, some (freeLimitMsg inp.fileBytes.length)⟩ ∧
     (∀ extr2, upload_step hash "free" user inp extr2 usage sess
        = upload_step hash "free" user inp extr usage sess) ∧
     (∀ t, extr = Except.ok t → pyStrip t ≠ "" → user ≠ "" →
        (upload_step hash "paid" user inp extr usage sess).errMsg = none ∧
        (upload_step hash "paid" user inp extr usage sess).sess.last_file_hash
          = some (hash inp.fileBytes) ∧
        get_usage (upload_step hash "paid" user inp extr usage sess).usage user
          = ⟨(get_usage usage user).uploads + 1, (get_usage usage user).summaries⟩)) := by
  intro hash user inp extr usage sess hsize
  have hgate : ("free" : String) = "free" ∧ inp.fileBytes.length > MAX_FREE_BYTES := ⟨rfl, hsize⟩
  have hgate2 : ¬(("paid" : String) = "free" ∧ inp.fileBytes.length > MAX_FREE_BYTES) := by
    intro hc
    exact absurd hc.1 (by decide)
  refine ⟨?_, ?_, ?_⟩
  · simp [upload_step, hgate]
  · intro extr2
    simp [upload_step, hgate]
  · intro t hext ht huser
    subst hext
    refine ⟨?_, ?_, ?_⟩
    · simp [upload_step, hgate2, ht]
    · simp [upload_step, hgate2, ht]
    · have husage : (upload_step hash "paid" user inp (Except.ok t) usage sess).usage
          = increment_usage usage user 1 0 := by
        simp [upload_step, hgate2, ht]
      rw [husage, (get_usage_increment usage user 1 0 huser).1]
      simp

/-- Oversize byte payload used by the Claim C7 witness. -/
def bigBytes : List Nat := List.replicate (MAX_FREE_BYTES + 1) 0

/-- Oversize upload input used by the Claim C7 witness. -/
def inpBig : UploadInput := ⟨bigBytes, "big.pdf", "Detailed Summary", "medium"⟩

/-- Witness for Claim C7: a concrete oversize free-plan upload is rejected
unchanged. -/
theorem C7_witness :
    upload_step (fun _ => "h") "free" "u" inpBig (Except.ok "hello") [] initSession
      = ⟨[], initSession, some (freeLimitMsg inpBig.fileBytes.length)⟩ :=
  (C7_free_plan_size_gate (fun _ => "h") "u" inpBig (Except.ok "hello") [] initSession
    (by show (List.replicate (MAX_FREE_BYTES + 1) 0).length > MAX_FREE_BYTES
        rw [List.length_replicate]
        exact Nat.lt_succ_self _)).1

/-- Content hash stand-in used by the Claim C8 counterexample. -/
def hashC8 : List Nat → String := fun b => "H" ++ String.mk (List.replicate b.length 'x')

/-- Session state holding a previous summary, for the C8 counterexample. -/
def sessC8 : SessionState :=
  { last_file_hash := some "h0", last_text := "old text", last_summary := "old summary",
    last_style := some "Detailed Summary", last_length := "medium", orig_wc := 2, summary_wc := 2 }

/-- Upload input of the C8 counterexample, hashing differently from the
stored hash of `sessC8`. -/
def inpC8 : UploadInput := ⟨[1, 2, 3], "new.pdf", "Bullet Points", "short"⟩

/-- Counterexample to Claim C8. A newly uploaded file whose content hash
differs from the stored `last_file_hash` does not clear the previous
summary when extraction succeeds: the new text replaces `last_text`, but
`last_summary` still holds the summary of the previous file. The app
never compares the new hash with the stored one. -/
theorem C8_counterexample :
    hashC8 [1, 2, 3] ≠ "h0" ∧
    sessC8.last_file_hash = some "h0" ∧
    (upload_step hashC8 "free" "u" inpC8 (Except.ok "brand new text") [] sessC8).sess.last_text
      = "brand new text" ∧
    (upload_step hashC8 "free" "u" inpC8
        (Except.ok "brand new text") [] sessC8).sess.last_summary = "old summary" ∧
    ("old summary" : String) ≠ "" := by
  refine ⟨by decide, rfl, by decide, by decide, by decide⟩

/-- Claim C8, amended. On every upload that passes the size gate the new
content hash unconditionally replaces `last_file_hash` with no comparison
against the stored hash; a successful non-empty extraction replaces the
stored text, style and length and recomputes the original word count
while carrying the previous summary and its word count over unchanged; a
failed or empty extraction clears both the stored text and summary and
zeroes both word counts, still replacing the hash. -/
theorem C8_session_state_update : ∀ (hash : List Nat → String) (plan user : String)
    (inp : UploadInput) (t : String) (usage : List (String × Usage)) (sess : SessionState),
    ¬(plan = "free" ∧ inp.fileBytes.length > MAX_FREE_BYTES) →
    ((pyStrip t ≠ "" →
        (upload_step hash plan user inp (Except.ok t) usage sess).sess
          = { last_file_hash := some (hash inp.fileBytes), last_text := t,
              last_summary := sess.last_summary, last_style := some inp.formatStyle,
              last_length := inp.lengthSel, orig_wc := wordCount t,
              summary_wc := sess.summary_wc }) ∧
     (pyStrip t = "" →
        (upload_step hash plan user inp (Except.ok t) usage sess).sess
          = { sess with
              last_file_hash := some (hash inp.fileBytes),
              last_text := "", last_summary := "", orig_wc := 0, summary_wc := 0 }) ∧
     (∀ e, (upload_step hash plan user inp (Except.error e) usage sess).sess
          = { sess with
              last_file_hash := some (hash inp.fileBytes),
              last_text := "", last_summary := "", orig_wc := 0, summary_wc := 0 })) := by
  intro hash plan user inp t usage sess hgate
  refine ⟨?_, ?_, ?_⟩
  · intro ht
    simp [upload_step, hgate, ht]
  · intro ht
    simp [upload_step, hgate, ht]
  · intro e
    have h0 : pyStrip "" = "" := rfl
    simp [upload_step, hgate, h0]

/-- Witness for the amended Claim C8 at a concrete successful upload. -/
theorem C8_witness :
    (upload_step hashC8 "paid" "u" ⟨[1], "a.pdf", "Bullet Points", "short"⟩
        (Except.ok "hi") [] sessC8).sess
      = { last_file_hash := some (hashC8 [1]), last_text := "hi",
          last_summary := sessC8.last_summary, last_style := some "Bullet Points",
          last_length := "short", orig_wc := wordCount "hi",
          summary_wc := sessC8.summary_wc } :=
  (C8_session_state_update hashC8 "paid" "u" ⟨[1], "a.pdf", "Bullet Points", "short"⟩ "hi" []
    sessC8 (by decide)).1 (by decide)
